import Mathlib

/-!
Shallow embedding of the boids GPU simulation core from src/main.js:
the velocity-update fragment shader (steering from sampled neighbours:
separation, alignment, cohesion; food attraction; predator repulsion;
random "freedom" steering; force limiting and integration), the
position-update fragment shader with toroidal wrap, and the CPU-side
environment scheduler (food orbits, predator relocation timers).

GLSL float arithmetic is idealised as real arithmetic; GLSL `vec3` is
`ℝ × ℝ × ℝ`; texture reads are function application on the texture
coordinate; each `Math.random()` draw of the scheduler is an explicit
oracle parameter ranging over `[0, 1)`.
-/

noncomputable section
open scoped Classical

namespace Boids

/-- GLSL `vec3`, idealised over ℝ. -/
abbrev Vec3 := ℝ × ℝ × ℝ

/-- x component of a `vec3`. -/
def vx (v : Vec3) : ℝ := v.1

/-- y component of a `vec3`. -/
def vy (v : Vec3) : ℝ := v.2.1

/-- z component of a `vec3`. -/
def vz (v : Vec3) : ℝ := v.2.2

/-- GLSL `length(v)`. -/
def len (v : Vec3) : ℝ := Real.sqrt (vx v ^ 2 + vy v ^ 2 + vz v ^ 2)

/-- GLSL componentwise division of a `vec3` by a scalar. -/
def divS (v : Vec3) (s : ℝ) : Vec3 := (vx v / s, vy v / s, vz v / s)

/-- GLSL `normalize(v) = v / length(v)`. -/
def normalize (v : Vec3) : Vec3 := divS v (len v)

/-- src/main.js 123-128, `limit` in the velocity shader:
`if (length(vec) > maxVal) return normalize(vec) * maxVal; return vec;` -/
def limit (v : Vec3) (maxVal : ℝ) : Vec3 :=
  if len v > maxVal then maxVal • normalize v else v

/-- src/main.js 118-120, the shader's pseudo-random function:
`fract(sin(dot(co.xy, vec2(12.9898, 78.233))) * 43758.5453)`. -/
def rand (co : ℝ × ℝ) : ℝ :=
  Int.fract (Real.sin (co.1 * 12.9898 + co.2 * 78.233) * 43758.5453)

/-- GLSL `vec2 + float`: the scalar is added to both components. -/
def addS (v : ℝ × ℝ) (s : ℝ) : ℝ × ℝ := (v.1 + s, v.2 + s)

/-- GLSL `fract` applied componentwise to a `vec2`. -/
def fract2 (v : ℝ × ℝ) : ℝ × ℝ := (Int.fract v.1, Int.fract v.2)

/-- src/main.js 112-115: shader constants.  `BOUNDS` is interpolated from the
JS constant 800, `BOUNDS_HALF` from 400. -/
def BOUNDS : ℝ := 800

/-- Shader constant `BOUNDS_HALF = 400.0`. -/
def BOUNDS_HALF : ℝ := 400

/-- Shader constant `PI = 3.14159265359` (a literal, not the exact π). -/
def PI : ℝ := 3.14159265359

/-- Shader constant `MASS = 1.0`. -/
def MASS : ℝ := 1

/-- src/main.js 148: `const float numSamples = 30.0`. -/
def numSamples : ℕ := 30

/-- src/main.js 17: `MAX_FOOD = 30`. -/
def MAX_FOOD : ℕ := 30

/-- src/main.js 18: `MAX_PREDATORS = 16`. -/
def MAX_PREDATORS : ℕ := 16

/-- The simulation uniforms read by the velocity shader
(src/main.js 26-56 `PARAMS`, wired to uniforms at 389-411). -/
structure SimParams where
  separationDistance : ℝ
  alignmentDistance : ℝ
  cohesionDistance : ℝ
  freedomFactor : ℝ
  separationWeight : ℝ
  alignmentWeight : ℝ
  cohesionWeight : ℝ
  predatorWeight : ℝ
  foodWeight : ℝ
  predatorRadius : ℝ
  foodRadius : ℝ
  maxSpeed : ℝ
  maxSteerForce : ℝ

/-- The default `PARAMS` values of src/main.js 26-56. -/
def defaultParams : SimParams :=
  ⟨10, 40, 40, 0.01, 0.4, 4, 5, 0.1, 1, 70, 150, 100, 25⟩

/-- src/main.js 150: the i-th neighbour sample coordinate of the agent at
texture coordinate `uv`:
`fract(uv + vec2(rand(uv + i*0.1), rand(uv - i*0.1)) * 0.1)`.
`time` is the shader's `time` uniform, which is in scope in the shader body;
the sampling expression does not use it. -/
def sampleCoord (uv : ℝ × ℝ) (time : ℝ) (i : ℕ) : ℝ × ℝ :=
  fract2 (uv.1 + rand (addS uv ((i : ℝ) * 0.1)) * 0.1,
          uv.2 + rand (addS uv (-((i : ℝ) * 0.1))) * 0.1)

/-- src/main.js 153: `diff = position - neighborPos` for the i-th sample. -/
def sdiff (P : ℝ × ℝ → Vec3) (time : ℝ) (uv : ℝ × ℝ) (i : ℕ) : Vec3 :=
  P uv - P (sampleCoord uv time i)

/-- src/main.js 154: `dist = length(diff)` for the i-th sample. -/
def sdist (P : ℝ × ℝ → Vec3) (time : ℝ) (uv : ℝ × ℝ) (i : ℕ) : ℝ :=
  len (sdiff P time uv i)

/-- src/main.js 156-161: accumulated separation vector over the 30 samples;
each sample with `0 < dist < separationDistance` contributes
`normalize(diff) / max(dist, 0.01)`. -/
def sepSum (P : ℝ × ℝ → Vec3) (prm : SimParams) (time : ℝ) (uv : ℝ × ℝ) : Vec3 :=
  ∑ i ∈ Finset.range numSamples,
    if 0 < sdist P time uv i ∧ sdist P time uv i < prm.separationDistance then
      divS (normalize (sdiff P time uv i)) (max (sdist P time uv i) 0.01)
    else 0

/-- src/main.js 160: `separationCount`. -/
def sepCount (P : ℝ × ℝ → Vec3) (prm : SimParams) (time : ℝ) (uv : ℝ × ℝ) : ℕ :=
  ∑ i ∈ Finset.range numSamples,
    if 0 < sdist P time uv i ∧ sdist P time uv i < prm.separationDistance then 1 else 0

/-- src/main.js 163-166: accumulated neighbour velocity (`avgVelocity`). -/
def alignSum (P V : ℝ × ℝ → Vec3) (prm : SimParams) (time : ℝ) (uv : ℝ × ℝ) : Vec3 :=
  ∑ i ∈ Finset.range numSamples,
    if 0 < sdist P time uv i ∧ sdist P time uv i < prm.alignmentDistance then
      V (sampleCoord uv time i)
    else 0

/-- src/main.js 165: `alignCount`. -/
def alignCount (P : ℝ × ℝ → Vec3) (prm : SimParams) (time : ℝ) (uv : ℝ × ℝ) : ℕ :=
  ∑ i ∈ Finset.range numSamples,
    if 0 < sdist P time uv i ∧ sdist P time uv i < prm.alignmentDistance then 1 else 0

/-- src/main.js 168-171: accumulated neighbour position (`avgPosition`). -/
def cohSum (P : ℝ × ℝ → Vec3) (prm : SimParams) (time : ℝ) (uv : ℝ × ℝ) : Vec3 :=
  ∑ i ∈ Finset.range numSamples,
    if 0 < sdist P time uv i ∧ sdist P time uv i < prm.cohesionDistance then
      P (sampleCoord uv time i)
    else 0

/-- src/main.js 170: `cohesionCount`. -/
def cohCount (P : ℝ × ℝ → Vec3) (prm : SimParams) (time : ℝ) (uv : ℝ × ℝ) : ℕ :=
  ∑ i ∈ Finset.range numSamples,
    if 0 < sdist P time uv i ∧ sdist P time uv i < prm.cohesionDistance then 1 else 0

/-- src/main.js 178-187, the separation steering contribution to
`totalSteeringForce` (0 when its guards fail):
`separationForce /= count; if (length(separationForce) > 0) {
 desired = normalize(separationForce) * maxSpeed;
 total += (desired - velocity) * separationWeight }`. -/
def sepSteer (P V : ℝ × ℝ → Vec3) (prm : SimParams) (time : ℝ) (uv : ℝ × ℝ) : Vec3 :=
  if 0 < sepCount P prm time uv then
    if 0 < len (divS (sepSum P prm time uv) ((sepCount P prm time uv : ℝ))) then
      prm.separationWeight •
        (prm.maxSpeed • normalize (divS (sepSum P prm time uv) ((sepCount P prm time uv : ℝ)))
          - V uv)
    else 0
  else 0

/-- src/main.js 190-197, the alignment steering contribution:
`avgVelocity /= count; desired = normalize(avgVelocity) * maxSpeed;
 total += (desired - velocity) * alignmentWeight`.
Note: unlike separation and cohesion there is no `length > 0` guard before
`normalize`.  In this real-valued embedding `normalize 0` junk-evaluates to
0 (Lean's 0/0 = 0), whereas GLSL yields NaN; theorems about `velocityShader`
therefore carry the non-degeneracy hypothesis
`0 < alignCount → alignSum ≠ 0`, which delimits the field states on which
the embedding is faithful — see `alignmentBlockChecked` and claim C4 for the
degenerate path. -/
def alignSteer (P V : ℝ × ℝ → Vec3) (prm : SimParams) (time : ℝ) (uv : ℝ × ℝ) : Vec3 :=
  if 0 < alignCount P prm time uv then
    prm.alignmentWeight •
      (prm.maxSpeed • normalize (divS (alignSum P V prm time uv) ((alignCount P prm time uv : ℝ)))
        - V uv)
  else 0

/-- src/main.js 200-210, the cohesion steering contribution:
`avgPosition /= count; vecToCenter = avgPosition - position;
 if (length(vecToCenter) > 0) { desired = normalize(vecToCenter) * maxSpeed;
 total += (desired - velocity) * cohesionWeight }`. -/
def cohSteer (P V : ℝ × ℝ → Vec3) (prm : SimParams) (time : ℝ) (uv : ℝ × ℝ) : Vec3 :=
  if 0 < cohCount P prm time uv then
    if 0 < len (divS (cohSum P prm time uv) ((cohCount P prm time uv : ℝ)) - P uv) then
      prm.cohesionWeight •
        (prm.maxSpeed •
          normalize (divS (cohSum P prm time uv) ((cohCount P prm time uv : ℝ)) - P uv)
          - V uv)
    else 0
  else 0

/-- src/main.js 215-228, one food source's contribution to
`foodSteeringForce`: if the source is active and
`0 < distToFood < foodRadius`, it contributes
`normalize(vecToFood) * maxSpeed - velocity`, else nothing. -/
def foodTerm (position velocity : Vec3) (prm : SimParams)
    (fp : ℕ → Vec3) (fa : ℕ → Bool) (i : ℕ) : Vec3 :=
  if fa i = true ∧ 0 < len (fp i - position) ∧ len (fp i - position) < prm.foodRadius then
    prm.maxSpeed • normalize (fp i - position) - velocity
  else 0

/-- src/main.js 225: `foodCount` contribution of one food source. -/
def foodCountTerm (position : Vec3) (prm : SimParams)
    (fp : ℕ → Vec3) (fa : ℕ → Bool) (i : ℕ) : ℕ :=
  if fa i = true ∧ 0 < len (fp i - position) ∧ len (fp i - position) < prm.foodRadius then 1
  else 0

/-- src/main.js 229-232: averaged food steering, weighted by `foodWeight`
(0 when no food source contributed). -/
def foodSteer (position velocity : Vec3) (prm : SimParams)
    (fp : ℕ → Vec3) (fa : ℕ → Bool) : Vec3 :=
  if 0 < ∑ i ∈ Finset.range MAX_FOOD, foodCountTerm position prm fp fa i then
    prm.foodWeight •
      divS (∑ i ∈ Finset.range MAX_FOOD, foodTerm position velocity prm fp fa i)
        ((∑ i ∈ Finset.range MAX_FOOD, foodCountTerm position prm fp fa i : ℝ))
  else 0

/-- src/main.js 238-252, one predator's contribution to
`predatorSteeringForce`: if the predator is active and
`0 < distToPredator < predatorRadius`, it contributes
`(normalize(vecFromPredator) * maxSpeed - velocity) *
 (predatorRadius / max(distToPredator, 0.1))`, else nothing. -/
def predTerm (position velocity : Vec3) (prm : SimParams)
    (pp : ℕ → Vec3) (pa : ℕ → Bool) (i : ℕ) : Vec3 :=
  if pa i = true ∧ 0 < len (position - pp i) ∧ len (position - pp i) < prm.predatorRadius then
    (prm.predatorRadius / max (len (position - pp i)) 0.1) •
      (prm.maxSpeed • normalize (position - pp i) - velocity)
  else 0

/-- src/main.js 249: `predatorCount` contribution of one predator. -/
def predCountTerm (position : Vec3) (prm : SimParams)
    (pp : ℕ → Vec3) (pa : ℕ → Bool) (i : ℕ) : ℕ :=
  if pa i = true ∧ 0 < len (position - pp i) ∧ len (position - pp i) < prm.predatorRadius then 1
  else 0

/-- src/main.js 253-256: averaged predator steering, weighted by
`predatorWeight` (0 when no predator contributed). -/
def predSteer (position velocity : Vec3) (prm : SimParams)
    (pp : ℕ → Vec3) (pa : ℕ → Bool) : Vec3 :=
  if 0 < ∑ i ∈ Finset.range MAX_PREDATORS, predCountTerm position prm pp pa i then
    prm.predatorWeight •
      divS (∑ i ∈ Finset.range MAX_PREDATORS, predTerm position velocity prm pp pa i)
        ((∑ i ∈ Finset.range MAX_PREDATORS, predCountTerm position prm pp pa i : ℝ))
  else 0

/-- src/main.js 260-267, the random "freedom" steering: when
`rand(uv + time*0.1) > 0.6`, add `randomSteer * 0.5` with
`angle = (rand(uv + time*0.2) - 0.5) * 2 * PI * freedomFactor * 0.1` and
`randomSteer = vec3(cos(angle), sin(angle), (rand(uv + time*0.3) - 0.5) * 0.5)`. -/
def freedomSteer (prm : SimParams) (time : ℝ) (uv : ℝ × ℝ) : Vec3 :=
  if rand (addS uv (time * 0.1)) > 0.6 then
    (0.5 : ℝ) •
      ((Real.cos ((rand (addS uv (time * 0.2)) - 0.5) * 2 * PI * prm.freedomFactor * 0.1),
        Real.sin ((rand (addS uv (time * 0.2)) - 0.5) * 2 * PI * prm.freedomFactor * 0.1),
        (rand (addS uv (time * 0.3)) - 0.5) * 0.5) : Vec3)
  else 0

/-- src/main.js 175-267: `totalSteeringForce`.  The shader accumulates with
`totalSteeringForce +=` inside guards; each guarded contribution is rendered
here as a term that is 0 when its guard fails, and the total as their sum. -/
def steerAll (P V : ℝ × ℝ → Vec3) (prm : SimParams)
    (fp : ℕ → Vec3) (fa : ℕ → Bool) (pp : ℕ → Vec3) (pa : ℕ → Bool)
    (time : ℝ) (uv : ℝ × ℝ) : Vec3 :=
  sepSteer P V prm time uv + alignSteer P V prm time uv + cohSteer P V prm time uv +
    foodSteer (P uv) (V uv) prm fp fa + predSteer (P uv) (V uv) prm pp pa +
    freedomSteer prm time uv

/-- src/main.js 130-277, the velocity fragment shader (output of 270-277):
`totalSteeringForce = limit(totalSteeringForce, maxSteerForce);
 acceleration = totalSteeringForce / MASS;
 velocity += acceleration * delta;
 velocity = limit(velocity, maxSpeed);`
`P`, `V` are the previous-frame position and velocity textures. -/
def velocityShader (P V : ℝ × ℝ → Vec3) (prm : SimParams)
    (fp : ℕ → Vec3) (fa : ℕ → Bool) (pp : ℕ → Vec3) (pa : ℕ → Bool)
    (time delta : ℝ) (uv : ℝ × ℝ) : Vec3 :=
  limit (V uv + delta • divS (limit (steerAll P V prm fp fa pp pa time uv) prm.maxSteerForce) MASS)
    prm.maxSpeed

/-- GLSL `mod(x, y) = x - y * floor(x / y)`. -/
def glMod (x y : ℝ) : ℝ := x - y * ⌊x / y⌋

/-- src/main.js 288-293, `wrapAround` of the position shader: each axis is
mapped by `mod(c + BOUNDS_HALF, BOUNDS) - BOUNDS_HALF`. -/
def wrapAround (p : Vec3) : Vec3 :=
  (glMod (vx p + BOUNDS_HALF) BOUNDS - BOUNDS_HALF,
   glMod (vy p + BOUNDS_HALF) BOUNDS - BOUNDS_HALF,
   glMod (vz p + BOUNDS_HALF) BOUNDS - BOUNDS_HALF)

/-- src/main.js 296-308, the position fragment shader:
`position += velocity * delta; position = wrapAround(position);`
Both textures are the previous-frame snapshot. -/
def positionShader (P V : ℝ × ℝ → Vec3) (delta : ℝ) (uv : ℝ × ℝ) : Vec3 :=
  wrapAround (P uv + delta • V uv)

/-- The double-buffered agent field: previous-frame position and velocity
textures. -/
abbrev SimState := (ℝ × ℝ → Vec3) × (ℝ × ℝ → Vec3)

/-- The position pass of one frame: it writes only the position texture; the
velocity texture is passed through untouched (each GPUComputationRenderer
variable's shader writes only its own texture). -/
def positionPass (s : SimState) (delta : ℝ) : SimState :=
  (fun uv => positionShader s.1 s.2 delta uv, s.2)

/-- The per-frame inputs of the two compute passes: elapsed time, (clamped,
scaled) delta time, and the food/predator uniform arrays published by the
environment scheduler (src/main.js 875-892). -/
structure FrameInput where
  time : ℝ
  delta : ℝ
  foodP : ℕ → Vec3
  foodA : ℕ → Bool
  predP : ℕ → Vec3
  predA : ℕ → Bool

/-- One whole simulation frame (src/main.js 892 `gpuCompute.compute()`):
both passes read the same previous-frame snapshot `s`, then the buffers are
swapped. -/
def frameStep (prm : SimParams) (inp : FrameInput) (s : SimState) : SimState :=
  (fun uv => positionShader s.1 s.2 inp.delta uv,
   fun uv => velocityShader s.1 s.2 prm inp.foodP inp.foodA inp.predP inp.predA
     inp.time inp.delta uv)

/-- Running the simulation over a sequence of frame inputs. -/
def runFrames (prm : SimParams) (inputs : List FrameInput) (s : SimState) : SimState :=
  inputs.foldl (fun st inp => frameStep prm inp st) s

/-! ## Environment scheduler (CPU side) -/

/-- src/main.js 20: `PREDATOR_LIFETIME = 20.0`. -/
def PREDATOR_LIFETIME : ℝ := 20

/-- src/main.js 621-627, `getRandomPosition`; `r1 r2 r3` are the three
`Math.random()` draws:
`(random()*BOUNDS - BOUNDS_HALF, random()*BOUNDS*0.6 - BOUNDS_HALF*0.3,
  random()*BOUNDS - BOUNDS_HALF)`. -/
def getRandomPosition (r1 r2 r3 : ℝ) : Vec3 :=
  (r1 * BOUNDS - BOUNDS_HALF,
   r2 * BOUNDS * 0.6 - BOUNDS_HALF * 0.3,
   r3 * BOUNDS - BOUNDS_HALF)

/-- A predator source (src/main.js 73, 679-684). -/
structure Predator where
  position : Vec3
  timer : ℝ
  active : Bool

/-- src/main.js 723-737, one predator's update per frame:
`timer -= delta; if (timer <= 0) { position = getRandomPosition();
 timer = PREDATOR_LIFETIME + random()*8 - 4 }`.
`r1 r2 r3` are the relocation draws and `rT` the timer draw (all consumed
only in the relocation branch). -/
def updatePredator (delta : ℝ) (r1 r2 r3 rT : ℝ) (p : Predator) : Predator :=
  if p.active = true then
    if p.timer - delta ≤ 0 then
      ⟨getRandomPosition r1 r2 r3, PREDATOR_LIFETIME + rT * 8.0 - 4.0, p.active⟩
    else
      ⟨p.position, p.timer - delta, p.active⟩
  else p

/-- Fixed orbit parameters of a food source (src/main.js 636-643). -/
structure OrbitParams where
  radius : ℝ
  speedFactor : ℝ
  phase : ℝ
  vertAmp : ℝ
  vertFreq : ℝ
  vertPhase : ℝ

/-- A food source (src/main.js 72, 656-662). -/
structure FoodSource where
  position : Vec3
  orbitParams : OrbitParams
  active : Bool

/-- src/main.js 699-711, the closed-form food trajectory:
`angle = time * foodOrbitSpeed * speedFactor + phase;
 x = radius * cos(angle); z = radius * sin(angle);
 y = vertAmp * sin(time * vertFreq * foodOrbitSpeed + vertPhase)`. -/
def foodTrajectory (foodOrbitSpeed time : ℝ) (q : OrbitParams) : Vec3 :=
  (q.radius * Real.cos (time * foodOrbitSpeed * q.speedFactor + q.phase),
   q.vertAmp * Real.sin (time * q.vertFreq * foodOrbitSpeed + q.vertPhase),
   q.radius * Real.sin (time * foodOrbitSpeed * q.speedFactor + q.phase))

/-- src/main.js 695-720, one food source's update per frame: when active, its
position is recomputed from elapsed time and its orbit parameters; inactive
sources are untouched. -/
def updateFood (foodOrbitSpeed time : ℝ) (f : FoodSource) : FoodSource :=
  if f.active = true then
    ⟨foodTrajectory foodOrbitSpeed time f.orbitParams, f.orbitParams, f.active⟩
  else f

/-! ## Checked (`Option`-valued) renderings of the normalization sites,
used to express "never normalizes a zero-length vector". -/

/-- `normalize` with the zero-length degeneracy made explicit: GLSL
`normalize(vec3(0.0))` is 0/0 (NaN), rendered as `none`. -/
def normalizeChecked (v : Vec3) : Option Vec3 :=
  if len v = 0 then none else some (normalize v)

/-- The separation steering block (src/main.js 178-187) with checked
normalization.  Its `length > 0` guard protects the `normalize` call. -/
def separationBlockChecked (s vel : Vec3) (count : ℕ) (maxSpeed w : ℝ) : Option Vec3 :=
  if 0 < count then
    if 0 < len (divS s (count : ℝ)) then
      (normalizeChecked (divS s (count : ℝ))).map fun n => w • (maxSpeed • n - vel)
    else some 0
  else some 0

/-- The alignment steering block (src/main.js 190-197) with checked
normalization.  The source has no `length > 0` guard here: `normalize` is
applied to the averaged neighbour velocity unconditionally. -/
def alignmentBlockChecked (s vel : Vec3) (count : ℕ) (maxSpeed w : ℝ) : Option Vec3 :=
  if 0 < count then
    (normalizeChecked (divS s (count : ℝ))).map fun n => w • (maxSpeed • n - vel)
  else some 0

/-! ## Concrete inputs used below -/

/-- The all-zero agent field. -/
def zeroField : ℝ × ℝ → Vec3 := fun _ => 0

/-- The texture coordinate of agent (0,0) on the 128×128 grid:
`gl_FragCoord/resolution = ((0 + 0.5)/128, (0 + 0.5)/128)`. -/
def uv00 : ℝ × ℝ := (1 / 256, 1 / 256)

/-- The `dot` argument of `rand` at `uv00`. -/
def d00 : ℝ := (1 / 256) * 12.9898 + (1 / 256) * 78.233

/-- An elapsed time at which the freedom-branch random draw
`rand(uv00 + time*0.1)` evaluates exactly to `y`: the time is chosen so the
sine argument is `arcsin (y / 43758.5453) + 2π`. -/
def timeFor (y : ℝ) : ℝ :=
  (Real.arcsin (y / 43758.5453) + 2 * Real.pi - d00) / 9.12228

/-- All-zero weights and zero freedom factor (distances, radii and limits as
in `PARAMS`). -/
def zeroWeightParams : SimParams :=
  ⟨10, 40, 40, 0, 0, 0, 0, 0, 0, 70, 150, 100, 25⟩

/-! ## Component and length lemmas -/

@[simp]
lemma vx_mk (a b c : ℝ) : vx (a, b, c) = a := rfl

@[simp]
lemma vy_mk (a b c : ℝ) : vy (a, b, c) = b := rfl

@[simp]
lemma vz_mk (a b c : ℝ) : vz (a, b, c) = c := rfl

@[simp]
lemma vx_add (v w : Vec3) : vx (v + w) = vx v + vx w := rfl

@[simp]
lemma vy_add (v w : Vec3) : vy (v + w) = vy v + vy w := rfl

@[simp]
lemma vz_add (v w : Vec3) : vz (v + w) = vz v + vz w := rfl

@[simp]
lemma vx_zero : vx (0 : Vec3) = 0 := rfl

@[simp]
lemma vy_zero : vy (0 : Vec3) = 0 := rfl

@[simp]
lemma vz_zero : vz (0 : Vec3) = 0 := rfl

@[simp]
lemma vx_smul (c : ℝ) (v : Vec3) : vx (c • v) = c * vx v := by
  simp [vx, Prod.smul_fst, smul_eq_mul]

@[simp]
lemma vy_smul (c : ℝ) (v : Vec3) : vy (c • v) = c * vy v := by
  simp [vy, Prod.smul_fst, Prod.smul_snd, smul_eq_mul]

@[simp]
lemma vz_smul (c : ℝ) (v : Vec3) : vz (c • v) = c * vz v := by
  simp [vz, Prod.smul_snd, smul_eq_mul]

lemma len_nonneg (v : Vec3) : 0 ≤ len v := Real.sqrt_nonneg _

@[simp]
lemma len_zero : len (0 : Vec3) = 0 := by
  simp [len]

lemma len_smul (c : ℝ) (v : Vec3) : len (c • v) = |c| * len v := by
  unfold len
  rw [show vx (c • v) ^ 2 + vy (c • v) ^ 2 + vz (c • v) ^ 2
      = c ^ 2 * (vx v ^ 2 + vy v ^ 2 + vz v ^ 2) by
    simp only [vx_smul, vy_smul, vz_smul]; ring]
  rw [Real.sqrt_mul (sq_nonneg c), Real.sqrt_sq_eq_abs]

lemma len_le_of_sq_le (v : Vec3) (m : ℝ)
    (h : vx v ^ 2 + vy v ^ 2 + vz v ^ 2 ≤ m ^ 2) (hm : 0 ≤ m) : len v ≤ m := by
  unfold len
  calc Real.sqrt (vx v ^ 2 + vy v ^ 2 + vz v ^ 2) ≤ Real.sqrt (m ^ 2) := Real.sqrt_le_sqrt h
    _ = m := Real.sqrt_sq hm

lemma divS_eq_smul (v : Vec3) (s : ℝ) : divS v s = s⁻¹ • v := by
  unfold divS
  refine Prod.ext ?_ (Prod.ext ?_ ?_) <;>
    simp [vx, vy, vz, smul_eq_mul, div_eq_mul_inv, mul_comm]

@[simp]
lemma divS_zero (s : ℝ) : divS (0 : Vec3) s = 0 := by
  simp [divS]

lemma divS_one (v : Vec3) : divS v 1 = v := by
  unfold divS
  rw [div_one, div_one, div_one]
  rfl

@[simp]
lemma normalize_zero : normalize 0 = 0 := by
  unfold normalize
  rw [divS_zero]

lemma limit_len_le (v : Vec3) (m : ℝ) (hm : 0 ≤ m) : len (limit v m) ≤ m := by
  unfold limit
  split_ifs with h
  · have hl : 0 < len v := lt_of_le_of_lt hm h
    rw [normalize, divS_eq_smul, smul_smul, len_smul,
      abs_of_nonneg (mul_nonneg hm (inv_nonneg.mpr hl.le)), mul_assoc,
      inv_mul_cancel₀ hl.ne', mul_one]
  · exact not_lt.mp h

lemma limit_smul_exists (v : Vec3) (m : ℝ) (hm : 0 ≤ m) :
    ∃ c : ℝ, 0 ≤ c ∧ limit v m = c • v := by
  unfold limit
  split_ifs with h
  · have hl : 0 < len v := lt_of_le_of_lt hm h
    exact ⟨m * (len v)⁻¹, mul_nonneg hm (inv_nonneg.mpr hl.le), by
      rw [normalize, divS_eq_smul, smul_smul]⟩
  · exact ⟨1, zero_le_one, (one_smul ℝ v).symm⟩

lemma limit_eq_self {v : Vec3} {m : ℝ} (h : len v ≤ m) : limit v m = v :=
  if_neg (not_lt.mpr h)

@[simp]
lemma limit_zero (m : ℝ) : limit (0 : Vec3) m = 0 := by
  unfold limit
  split_ifs with h
  · rw [normalize_zero, smul_zero]
  · rfl

lemma rand_nonneg (co : ℝ × ℝ) : 0 ≤ rand co := Int.fract_nonneg _

lemma rand_lt_one (co : ℝ × ℝ) : rand co < 1 := Int.fract_lt_one _

lemma glMod_bounds (x y : ℝ) (hy : 0 < y) : 0 ≤ glMod x y ∧ glMod x y < y := by
  have h1 : (⌊x / y⌋ : ℝ) ≤ x / y := Int.floor_le _
  have h2 : x / y < ⌊x / y⌋ + 1 := Int.lt_floor_add_one _
  have h3 : (⌊x / y⌋ : ℝ) * y ≤ x := (le_div_iff hy).mp h1
  have h4 : x < ((⌊x / y⌋ : ℝ) + 1) * y := (div_lt_iff hy).mp h2
  unfold glMod
  constructor <;> nlinarith

lemma wrap_coord_bounds (x : ℝ) :
    -BOUNDS_HALF ≤ glMod (x + BOUNDS_HALF) BOUNDS - BOUNDS_HALF ∧
      glMod (x + BOUNDS_HALF) BOUNDS - BOUNDS_HALF < BOUNDS_HALF := by
  have h := glMod_bounds (x + BOUNDS_HALF) BOUNDS (by norm_num [BOUNDS])
  unfold BOUNDS BOUNDS_HALF at h ⊢
  constructor <;> linarith [h.1, h.2]

/-! ## Evaluation lemmas for concrete fields -/

@[simp]
lemma zeroField_apply (w : ℝ × ℝ) : zeroField w = 0 := rfl

lemma sdist_zeroField (time : ℝ) (uv : ℝ × ℝ) (i : ℕ) :
    sdist zeroField time uv i = 0 := by
  unfold sdist sdiff
  simp

lemma sepCount_zeroField (prm : SimParams) (time : ℝ) (uv : ℝ × ℝ) :
    sepCount zeroField prm time uv = 0 := by
  unfold sepCount
  exact Finset.sum_eq_zero fun i _ => by simp [sdist_zeroField]

lemma alignCount_zeroField (prm : SimParams) (time : ℝ) (uv : ℝ × ℝ) :
    alignCount zeroField prm time uv = 0 := by
  unfold alignCount
  exact Finset.sum_eq_zero fun i _ => by simp [sdist_zeroField]

lemma cohCount_zeroField (prm : SimParams) (time : ℝ) (uv : ℝ × ℝ) :
    cohCount zeroField prm time uv = 0 := by
  unfold cohCount
  exact Finset.sum_eq_zero fun i _ => by simp [sdist_zeroField]

lemma sepSteer_zeroField (prm : SimParams) (time : ℝ) (uv : ℝ × ℝ) :
    sepSteer zeroField zeroField prm time uv = 0 := by
  unfold sepSteer
  rw [sepCount_zeroField]
  simp

lemma alignSteer_zeroField (prm : SimParams) (time : ℝ) (uv : ℝ × ℝ) :
    alignSteer zeroField zeroField prm time uv = 0 := by
  unfold alignSteer
  rw [alignCount_zeroField]
  simp

lemma cohSteer_zeroField (prm : SimParams) (time : ℝ) (uv : ℝ × ℝ) :
    cohSteer zeroField zeroField prm time uv = 0 := by
  unfold cohSteer
  rw [cohCount_zeroField]
  simp

lemma foodSteer_inactive (position velocity : Vec3) (prm : SimParams) (fp : ℕ → Vec3) :
    foodSteer position velocity prm fp (fun _ => false) = 0 := by
  unfold foodSteer
  rw [Finset.sum_eq_zero (fun i _ => by simp [foodCountTerm])]
  simp

lemma predSteer_inactive (position velocity : Vec3) (prm : SimParams) (pp : ℕ → Vec3) :
    predSteer position velocity prm pp (fun _ => false) = 0 := by
  unfold predSteer
  rw [Finset.sum_eq_zero (fun i _ => by simp [predCountTerm])]
  simp

lemma freedom_only_total (prm : SimParams) (fp pp : ℕ → Vec3) (time : ℝ) (uv : ℝ × ℝ) :
    steerAll zeroField zeroField prm fp (fun _ => false) pp (fun _ => false) time uv =
      freedomSteer prm time uv := by
  unfold steerAll
  rw [sepSteer_zeroField, alignSteer_zeroField, cohSteer_zeroField,
    foodSteer_inactive, predSteer_inactive]
  simp

/-! ## Zero-weight lemmas -/

lemma sepSteer_weight_zero (P V : ℝ × ℝ → Vec3) (prm : SimParams) (time : ℝ) (uv : ℝ × ℝ)
    (h : prm.separationWeight = 0) : sepSteer P V prm time uv = 0 := by
  unfold sepSteer
  split_ifs <;> simp [h]

lemma alignSteer_weight_zero (P V : ℝ × ℝ → Vec3) (prm : SimParams) (time : ℝ) (uv : ℝ × ℝ)
    (h : prm.alignmentWeight = 0) : alignSteer P V prm time uv = 0 := by
  unfold alignSteer
  split_ifs <;> simp [h]

lemma cohSteer_weight_zero (P V : ℝ × ℝ → Vec3) (prm : SimParams) (time : ℝ) (uv : ℝ × ℝ)
    (h : prm.cohesionWeight = 0) : cohSteer P V prm time uv = 0 := by
  unfold cohSteer
  split_ifs <;> simp [h]

lemma foodSteer_weight_zero (position velocity : Vec3) (prm : SimParams)
    (fp : ℕ → Vec3) (fa : ℕ → Bool) (h : prm.foodWeight = 0) :
    foodSteer position velocity prm fp fa = 0 := by
  unfold foodSteer
  split_ifs <;> simp [h]

lemma predSteer_weight_zero (position velocity : Vec3) (prm : SimParams)
    (pp : ℕ → Vec3) (pa : ℕ → Bool) (h : prm.predatorWeight = 0) :
    predSteer position velocity prm pp pa = 0 := by
  unfold predSteer
  split_ifs <;> simp [h]

lemma freedomSteer_not_fired (prm : SimParams) (time : ℝ) (uv : ℝ × ℝ)
    (h : ¬ rand (addS uv (time * 0.1)) > 0.6) : freedomSteer prm time uv = 0 := by
  unfold freedomSteer
  exact if_neg h

/-! ## Evaluating `rand` exactly at chosen elapsed times -/

lemma rand_at_timeFor (y : ℝ) (h0 : 0 ≤ y) (h1 : y < 1) :
    rand (addS uv00 (timeFor y * 0.1)) = y := by
  have hC : (43758.5453 : ℝ) ≠ 0 := by norm_num
  have harg : (uv00.1 + timeFor y * 0.1) * 12.9898 + (uv00.2 + timeFor y * 0.1) * 78.233
      = Real.arcsin (y / 43758.5453) + 2 * Real.pi := by
    unfold uv00 timeFor d00
    field_simp
    ring
  unfold rand addS
  rw [harg, Real.sin_add_two_pi,
    Real.sin_arcsin (le_trans (by norm_num) (div_nonneg h0 (by norm_num)))
      ((div_le_one (by norm_num)).mpr (by linarith)),
    div_mul_cancel₀ _ hC]
  exact Int.fract_eq_self.mpr ⟨h0, h1⟩

lemma timeFor_nonneg (y : ℝ) (h0 : 0 ≤ y) : 0 ≤ timeFor y := by
  unfold timeFor d00
  have hπ := Real.pi_gt_three
  have harc : 0 ≤ Real.arcsin (y / 43758.5453) :=
    Real.arcsin_nonneg.mpr (div_nonneg h0 (by norm_num))
  have hnum : 0 ≤ Real.arcsin (y / 43758.5453) + 2 * Real.pi
      - ((1 / 256) * 12.9898 + (1 / 256) * 78.233) := by linarith
  exact div_nonneg hnum (by norm_num)

lemma velocityShader_eval_of_steer (P V : ℝ × ℝ → Vec3) (prm : SimParams)
    (fp : ℕ → Vec3) (fa : ℕ → Bool) (pp : ℕ → Vec3) (pa : ℕ → Bool)
    (time delta : ℝ) (uv : ℝ × ℝ) (T : Vec3)
    (hT : steerAll P V prm fp fa pp pa time uv = T)
    (hT1 : len T ≤ prm.maxSteerForce)
    (hT2 : len (V uv + delta • divS T MASS) ≤ prm.maxSpeed) :
    velocityShader P V prm fp fa pp pa time delta uv = V uv + delta • divS T MASS := by
  unfold velocityShader
  rw [hT, limit_eq_self hT1, limit_eq_self hT2]

/-! ## Claim theorems -/

/-- Claim C1 (code bug): the velocity-update pass bounds the new velocity's
magnitude by `maxSpeed` — but only away from the alignment degeneracy of C4.
The hypothesis `_halign` (the accumulated sampled neighbour velocity is
nonzero whenever the alignment count is positive) delimits the field states
on which this real-arithmetic embedding is faithful: at a degenerate field
the shader's unguarded `normalize(vec3(0.0))` makes the velocity NaN, which
`limit` does not clamp (`length(vec) > maxVal` is false for NaN), so the
program violates the bound there. -/
theorem c1_speed_limit (P V : ℝ × ℝ → Vec3) (prm : SimParams)
    (fp : ℕ → Vec3) (fa : ℕ → Bool) (pp : ℕ → Vec3) (pa : ℕ → Bool)
    (time delta : ℝ) (uv : ℝ × ℝ)
    (_halign : 0 < alignCount P prm time uv → alignSum P V prm time uv ≠ 0)
    (h : 0 ≤ prm.maxSpeed) :
    len (velocityShader P V prm fp fa pp pa time delta uv) ≤ prm.maxSpeed := by
  unfold velocityShader
  exact limit_len_le _ _ h

/-- Witness for C1 at the default parameters and a concrete non-degenerate
field (the all-zero field has alignment count 0 at every agent). -/
theorem c1_speed_limit_witness :
    len (velocityShader zeroField zeroField defaultParams (fun _ => 0) (fun _ => false)
      (fun _ => 0) (fun _ => false) 0 0.016 uv00) ≤ defaultParams.maxSpeed :=
  c1_speed_limit _ _ _ _ _ _ _ _ _ _
    (by simp [alignCount_zeroField]) (by norm_num [defaultParams])

/-- Claim C2: the position pass computes
`position_new = wrap(position_old + velocity_old * dt)` with `wrap` exact
modular arithmetic per axis; every coordinate of the result lies in
`[-bound/2, bound/2)`, and the position pass leaves the velocity field
untouched. -/
theorem c2_position_wrap (P V : ℝ × ℝ → Vec3) (delta : ℝ) (uv : ℝ × ℝ) (s : SimState) :
    positionShader P V delta uv = wrapAround (P uv + delta • V uv) ∧
    (-BOUNDS_HALF ≤ vx (positionShader P V delta uv) ∧
      vx (positionShader P V delta uv) < BOUNDS_HALF) ∧
    (-BOUNDS_HALF ≤ vy (positionShader P V delta uv) ∧
      vy (positionShader P V delta uv) < BOUNDS_HALF) ∧
    (-BOUNDS_HALF ≤ vz (positionShader P V delta uv) ∧
      vz (positionShader P V delta uv) < BOUNDS_HALF) ∧
    (positionPass s delta).2 = s.2 :=
  ⟨rfl, wrap_coord_bounds (vx (P uv + delta • V uv)),
    wrap_coord_bounds (vy (P uv + delta • V uv)),
    wrap_coord_bounds (vz (P uv + delta • V uv)), rfl⟩

/-- Claim C3 (amended): if all five weights are 0 and `freedomFactor` is 0,
then on every frame in which the shader's random-steer branch does not fire
(`rand(uv + time*0.1) ≤ 0.6`) and no alignment degeneracy occurs (hypothesis
`_halignOK`; at a degenerate field the unguarded `normalize(vec3(0.0))` of C4
makes the total NaN even under zero weights, since NaN * 0 = NaN), an agent
whose speed is within `maxSpeed` keeps its velocity unchanged, and the
position update is exact Euler integration `p' = wrap(p + v*dt)`.  (The
branch condition is necessary: see `c3_counterexample`.) -/
theorem c3_zero_force_drift (P V : ℝ × ℝ → Vec3) (prm : SimParams)
    (fp : ℕ → Vec3) (fa : ℕ → Bool) (pp : ℕ → Vec3) (pa : ℕ → Bool)
    (time delta : ℝ) (uv : ℝ × ℝ)
    (_halignOK : 0 < alignCount P prm time uv → alignSum P V prm time uv ≠ 0)
    (hsep : prm.separationWeight = 0) (halign : prm.alignmentWeight = 0)
    (hcoh : prm.cohesionWeight = 0) (hfood : prm.foodWeight = 0)
    (hpred : prm.predatorWeight = 0) (_hfree : prm.freedomFactor = 0)
    (hbranch : ¬ rand (addS uv (time * 0.1)) > 0.6)
    (hv : len (V uv) ≤ prm.maxSpeed) :
    velocityShader P V prm fp fa pp pa time delta uv = V uv ∧
    positionShader P V delta uv = wrapAround (P uv + delta • V uv) := by
  constructor
  · have htot : steerAll P V prm fp fa pp pa time uv = 0 := by
      unfold steerAll
      rw [sepSteer_weight_zero _ _ _ _ _ hsep, alignSteer_weight_zero _ _ _ _ _ halign,
        cohSteer_weight_zero _ _ _ _ _ hcoh, foodSteer_weight_zero _ _ _ _ _ hfood,
        predSteer_weight_zero _ _ _ _ _ hpred, freedomSteer_not_fired _ _ _ hbranch]
      simp
    unfold velocityShader
    rw [htot, limit_zero, divS_zero, smul_zero, add_zero, limit_eq_self hv]
  · rfl

/-- Witness for the amended C3: the all-zero field with zero weights at an
elapsed time where the random draw evaluates to 0.5 ≤ 0.6. -/
theorem c3_zero_force_drift_witness :
    velocityShader zeroField zeroField zeroWeightParams (fun _ => 0) (fun _ => false)
        (fun _ => 0) (fun _ => false) (timeFor (1 / 2)) 0.016 uv00 = zeroField uv00 ∧
    positionShader zeroField zeroField 0.016 uv00 =
      wrapAround (zeroField uv00 + (0.016 : ℝ) • zeroField uv00) :=
  c3_zero_force_drift _ _ _ _ _ _ _ _ _ _
    (by simp [alignCount_zeroField]) rfl rfl rfl rfl rfl rfl
    (by rw [rand_at_timeFor (1 / 2) (by norm_num) (by norm_num)]; norm_num)
    (by simp [zeroWeightParams])

/-- Counterexample to C3 as stated: with all weights 0 and `freedomFactor` 0,
at the (nonnegative) elapsed time `timeFor 0.61` the branch draw
`rand(uv00 + time*0.1)` equals 0.61 > 0.6, and the shader still adds the
random steer `vec3(cos 0, sin 0, *) * 0.5`, whose x-component 0.5 does not
depend on `freedomFactor`; hence the velocity of the agent at `uv00` (at
rest, with no food and no predators) changes. -/
theorem c3_counterexample :
    velocityShader zeroField zeroField zeroWeightParams (fun _ => 0) (fun _ => false)
        (fun _ => 0) (fun _ => false) (timeFor 0.61) 0.016 uv00 ≠ zeroField uv00 ∧
    0 ≤ timeFor 0.61 := by
  refine ⟨?_, timeFor_nonneg _ (by norm_num)⟩
  have hr30 : 0 ≤ rand (addS uv00 (timeFor 0.61 * 0.3)) := rand_nonneg _
  have hr31 : rand (addS uv00 (timeFor 0.61 * 0.3)) < 1 := rand_lt_one _
  have hfree : freedomSteer zeroWeightParams (timeFor 0.61) uv00 =
      (0.5 : ℝ) • ((1 : ℝ), (0 : ℝ),
        (rand (addS uv00 (timeFor 0.61 * 0.3)) - 0.5) * 0.5) := by
    unfold freedomSteer
    rw [if_pos (by rw [rand_at_timeFor 0.61 (by norm_num) (by norm_num)]; norm_num)]
    have hangle : (rand (addS uv00 (timeFor 0.61 * 0.2)) - 0.5) * 2 * PI *
        zeroWeightParams.freedomFactor * 0.1 = 0 := by
      rw [show zeroWeightParams.freedomFactor = 0 from rfl, mul_zero, zero_mul]
    rw [hangle, Real.cos_zero, Real.sin_zero]
  have htot : steerAll zeroField zeroField zeroWeightParams (fun _ => 0) (fun _ => false)
      (fun _ => 0) (fun _ => false) (timeFor 0.61) uv00 =
      (0.5 : ℝ) • ((1 : ℝ), (0 : ℝ),
        (rand (addS uv00 (timeFor 0.61 * 0.3)) - 0.5) * 0.5) := by
    rw [freedom_only_total, hfree]
  have hlenT : len ((0.5 : ℝ) • ((1 : ℝ), (0 : ℝ),
      (rand (addS uv00 (timeFor 0.61 * 0.3)) - 0.5) * 0.5) : Vec3) ≤ 25 := by
    apply len_le_of_sq_le _ _ _ (by norm_num)
    simp only [vx_smul, vy_smul, vz_smul, vx_mk, vy_mk, vz_mk]
    nlinarith [sq_nonneg (rand (addS uv00 (timeFor 0.61 * 0.3)) - 0.5)]
  have hM : divS ((0.5 : ℝ) • ((1 : ℝ), (0 : ℝ),
      (rand (addS uv00 (timeFor 0.61 * 0.3)) - 0.5) * 0.5) : Vec3) MASS =
      (0.5 : ℝ) • ((1 : ℝ), (0 : ℝ),
        (rand (addS uv00 (timeFor 0.61 * 0.3)) - 0.5) * 0.5) := by
    rw [show MASS = (1 : ℝ) from rfl, divS_one]
  have hmain := velocityShader_eval_of_steer zeroField zeroField zeroWeightParams
    (fun _ => 0) (fun _ => false) (fun _ => 0) (fun _ => false)
    (timeFor 0.61) 0.016 uv00 _ htot
    (by rw [show zeroWeightParams.maxSteerForce = (25 : ℝ) from rfl]; exact hlenT)
    (by
      rw [hM, zeroField_apply, zero_add, len_smul,
        show zeroWeightParams.maxSpeed = (100 : ℝ) from rfl,
        abs_of_pos (by norm_num : (0 : ℝ) < 0.016)]
      nlinarith [hlenT, len_nonneg ((0.5 : ℝ) • ((1 : ℝ), (0 : ℝ),
        (rand (addS uv00 (timeFor 0.61 * 0.3)) - 0.5) * 0.5) : Vec3)])
  rw [hmain, hM]
  intro h
  have h2 := congrArg vx h
  simp only [zeroField_apply, vx_add, vx_smul, vx_mk, vx_zero, zero_add] at h2
  norm_num at h2

/-- Claim C4 (code bug): the alignment steering block normalizes the averaged
neighbour velocity with no zero-length guard, so a zero accumulated velocity
with a positive alignment count reaches `normalize(vec3(0.0))` (0/0, NaN in
GLSL) — rendered checked, it yields `none`; the separation block's
`length > 0` guard, by contrast, turns the same degenerate input into a zero
contribution. -/
theorem c4_alignment_unguarded :
    alignmentBlockChecked 0 0 1 100 4 = none ∧
    separationBlockChecked 0 0 1 100 0.4 = some 0 ∧
    normalizeChecked 0 = none := by
  refine ⟨?_, ?_, ?_⟩
  · simp [alignmentBlockChecked, normalizeChecked]
  · simp [separationBlockChecked]
  · simp [normalizeChecked]

/-- Claim C5 (amended): the `i`-th neighbour sample coordinate is derived
deterministically from the agent's own texture coordinate and the sample
index alone; the shader's `time` uniform does not enter the sampling
expression, so the sample coordinates are identical at any two times. -/
theorem c5_samples_time_independent (uv : ℝ × ℝ) (t t' : ℝ) (i : ℕ) :
    sampleCoord uv t i = sampleCoord uv t' i := rfl

/-- Counterexample to C5 as stated: the 30 sample coordinates of the agent at
`uv00` are the same at elapsed time 0 and at elapsed time 1, even though the
two times differ — they do not vary from frame to frame. -/
theorem c5_counterexample :
    (List.range 30).map (sampleCoord uv00 0) = (List.range 30).map (sampleCoord uv00 1) ∧
    (0 : ℝ) ≠ 1 :=
  ⟨rfl, by norm_num⟩

/-- Claim C6 (amended): an active predator's timer decrements by the frame
delta; while the decremented timer stays positive the position is unchanged;
when it reaches ≤ 0 the position is redrawn by `getRandomPosition` — X and Z
uniform over the full bounds `[-400, 400)`, Y uniform over the narrower
sub-range `[-120, 360)` (inside the bounds but offset upward, not centered) —
and the timer is reset to a value in `[lifetime - 4, lifetime + 4]`. -/
theorem c6_predator_update (delta r1 r2 r3 rT : ℝ) (p : Predator)
    (hact : p.active = true)
    (h1l : 0 ≤ r1) (h1u : r1 < 1) (h2l : 0 ≤ r2) (h2u : r2 < 1)
    (h3l : 0 ≤ r3) (h3u : r3 < 1) (hTl : 0 ≤ rT) (hTu : rT < 1) :
    (0 < p.timer - delta →
      updatePredator delta r1 r2 r3 rT p = ⟨p.position, p.timer - delta, true⟩) ∧
    (p.timer - delta ≤ 0 →
      (updatePredator delta r1 r2 r3 rT p).position = getRandomPosition r1 r2 r3 ∧
      PREDATOR_LIFETIME - 4 ≤ (updatePredator delta r1 r2 r3 rT p).timer ∧
      (updatePredator delta r1 r2 r3 rT p).timer ≤ PREDATOR_LIFETIME + 4 ∧
      (-BOUNDS_HALF ≤ vx (getRandomPosition r1 r2 r3) ∧
        vx (getRandomPosition r1 r2 r3) < BOUNDS_HALF) ∧
      (-BOUNDS_HALF ≤ vz (getRandomPosition r1 r2 r3) ∧
        vz (getRandomPosition r1 r2 r3) < BOUNDS_HALF) ∧
      (-BOUNDS_HALF ≤ vy (getRandomPosition r1 r2 r3) ∧
        vy (getRandomPosition r1 r2 r3) < BOUNDS_HALF) ∧
      (-120 ≤ vy (getRandomPosition r1 r2 r3) ∧
        vy (getRandomPosition r1 r2 r3) < 360)) := by
  have hupd : updatePredator delta r1 r2 r3 rT p =
      if p.timer - delta ≤ 0 then
        ⟨getRandomPosition r1 r2 r3, PREDATOR_LIFETIME + rT * 8.0 - 4.0, p.active⟩
      else ⟨p.position, p.timer - delta, p.active⟩ := by
    unfold updatePredator
    rw [if_pos hact]
  constructor
  · intro h
    rw [hupd, if_neg (not_le.mpr h), hact]
  · intro h
    rw [hupd, if_pos h]
    refine ⟨rfl, ?_, ?_, ?_, ?_, ?_, ?_⟩ <;>
      simp only [getRandomPosition, vx_mk, vy_mk, vz_mk, PREDATOR_LIFETIME,
        BOUNDS, BOUNDS_HALF] <;>
      first
        | nlinarith
        | (constructor <;> nlinarith)

/-- Witness for the amended C6, exercising the relocation branch. -/
theorem c6_predator_update_witness :
    (0 < (5 : ℝ) - 10 →
      updatePredator 10 (1 / 2) (1 / 2) (1 / 2) (1 / 2) ⟨(0, 0, 0), 5, true⟩ =
        ⟨((0 : ℝ), (0 : ℝ), (0 : ℝ)), (5 : ℝ) - 10, true⟩) ∧
    ((5 : ℝ) - 10 ≤ 0 →
      (updatePredator 10 (1 / 2) (1 / 2) (1 / 2) (1 / 2) ⟨(0, 0, 0), 5, true⟩).position =
        getRandomPosition (1 / 2) (1 / 2) (1 / 2) ∧
      PREDATOR_LIFETIME - 4 ≤
        (updatePredator 10 (1 / 2) (1 / 2) (1 / 2) (1 / 2) ⟨(0, 0, 0), 5, true⟩).timer ∧
      (updatePredator 10 (1 / 2) (1 / 2) (1 / 2) (1 / 2) ⟨(0, 0, 0), 5, true⟩).timer ≤
        PREDATOR_LIFETIME + 4 ∧
      (-BOUNDS_HALF ≤ vx (getRandomPosition (1 / 2) (1 / 2) (1 / 2)) ∧
        vx (getRandomPosition (1 / 2) (1 / 2) (1 / 2)) < BOUNDS_HALF) ∧
      (-BOUNDS_HALF ≤ vz (getRandomPosition (1 / 2) (1 / 2) (1 / 2)) ∧
        vz (getRandomPosition (1 / 2) (1 / 2) (1 / 2)) < BOUNDS_HALF) ∧
      (-BOUNDS_HALF ≤ vy (getRandomPosition (1 / 2) (1 / 2) (1 / 2)) ∧
        vy (getRandomPosition (1 / 2) (1 / 2) (1 / 2)) < BOUNDS_HALF) ∧
      (-120 ≤ vy (getRandomPosition (1 / 2) (1 / 2) (1 / 2)) ∧
        vy (getRandomPosition (1 / 2) (1 / 2) (1 / 2)) < 360)) :=
  c6_predator_update 10 (1 / 2) (1 / 2) (1 / 2) (1 / 2) ⟨(0, 0, 0), 5, true⟩ rfl
    (by norm_num) (by norm_num) (by norm_num) (by norm_num)
    (by norm_num) (by norm_num) (by norm_num) (by norm_num)

/-- Counterexample to C6's "centered" Y sub-range: the Y coordinate produced
by the middle random draw 1/2 is 120, not the bounds' center 0 (while the X
coordinate at the middle draw is exactly 0); the Y range `[-120, 360)` is
offset upward, not centered. -/
theorem c6_counterexample :
    vy (getRandomPosition 0 0 0) = -120 ∧
    vy (getRandomPosition 0 (1 / 2) 0) = 120 ∧
    vy (getRandomPosition 0 1 0) = 360 ∧
    vx (getRandomPosition (1 / 2) 0 0) = 0 ∧
    (120 : ℝ) ≠ 0 := by
  norm_num [getRandomPosition, BOUNDS, BOUNDS_HALF]

/-- Claim C7 (code bug): the summed total steering force is clamped to
magnitude at most `maxSteerForce` with direction preserved (the clamped
vector is a nonnegative scalar multiple of the unclamped sum), and exactly
this clamped vector is the acceleration integrated by the velocity shader —
but only away from the alignment degeneracy of C4, delimited by hypothesis
`_halign`: at a degenerate field the shader's total is NaN and `limit`
passes it through unclamped, so the program violates the bound there. -/
theorem c7_steer_clamped (P V : ℝ × ℝ → Vec3) (prm : SimParams)
    (fp : ℕ → Vec3) (fa : ℕ → Bool) (pp : ℕ → Vec3) (pa : ℕ → Bool)
    (time delta : ℝ) (uv : ℝ × ℝ)
    (_halign : 0 < alignCount P prm time uv → alignSum P V prm time uv ≠ 0)
    (h : 0 ≤ prm.maxSteerForce) :
    len (limit (steerAll P V prm fp fa pp pa time uv) prm.maxSteerForce) ≤
      prm.maxSteerForce ∧
    (∃ c : ℝ, 0 ≤ c ∧ limit (steerAll P V prm fp fa pp pa time uv) prm.maxSteerForce =
      c • steerAll P V prm fp fa pp pa time uv) ∧
    velocityShader P V prm fp fa pp pa time delta uv =
      limit (V uv + delta •
        divS (limit (steerAll P V prm fp fa pp pa time uv) prm.maxSteerForce) MASS)
        prm.maxSpeed :=
  ⟨limit_len_le _ _ h, limit_smul_exists _ _ h, rfl⟩

/-- Witness for C7 at the default parameters and a concrete field. -/
theorem c7_steer_clamped_witness :
    len (limit (steerAll zeroField zeroField defaultParams (fun _ => 0) (fun _ => false)
        (fun _ => 0) (fun _ => false) 0 uv00) defaultParams.maxSteerForce) ≤
      defaultParams.maxSteerForce ∧
    (∃ c : ℝ, 0 ≤ c ∧
      limit (steerAll zeroField zeroField defaultParams (fun _ => 0) (fun _ => false)
        (fun _ => 0) (fun _ => false) 0 uv00) defaultParams.maxSteerForce =
      c • steerAll zeroField zeroField defaultParams (fun _ => 0) (fun _ => false)
        (fun _ => 0) (fun _ => false) 0 uv00) ∧
    velocityShader zeroField zeroField defaultParams (fun _ => 0) (fun _ => false)
        (fun _ => 0) (fun _ => false) 0 0.016 uv00 =
      limit (zeroField uv00 + (0.016 : ℝ) •
        divS (limit (steerAll zeroField zeroField defaultParams (fun _ => 0)
          (fun _ => false) (fun _ => 0) (fun _ => false) 0 uv00)
          defaultParams.maxSteerForce) MASS)
        defaultParams.maxSpeed :=
  c7_steer_clamped _ _ _ _ _ _ _ _ _ _
    (by simp [alignCount_zeroField]) (by norm_num [defaultParams])

/-- Claim C8: an active food source's position is recomputed each frame as the
closed-form trajectory of elapsed time and its fixed orbit parameters, so two
sources with identical orbit parameters get identical positions — the update
has no hidden mutable state. -/
theorem c8_food_trajectory_pure (s t : ℝ) (f g : FoodSource)
    (hf : f.active = true) (hg : g.active = true)
    (hq : g.orbitParams = f.orbitParams) :
    (updateFood s t f).position = foodTrajectory s t f.orbitParams ∧
    (updateFood s t g).position = (updateFood s t f).position := by
  unfold updateFood
  rw [if_pos hf, if_pos hg, hq]
  exact ⟨rfl, rfl⟩

/-- Witness for C8 with two concrete sources sharing orbit parameters. -/
theorem c8_food_trajectory_pure_witness :
    (updateFood 0.2 3 ⟨(0, 0, 0), ⟨200, 1, 0, 50, 0.5, 0⟩, true⟩).position =
      foodTrajectory 0.2 3 (⟨200, 1, 0, 50, 0.5, 0⟩ : OrbitParams) ∧
    (updateFood 0.2 3 ⟨(7, 7, 7), ⟨200, 1, 0, 50, 0.5, 0⟩, true⟩).position =
      (updateFood 0.2 3 ⟨(0, 0, 0), ⟨200, 1, 0, 50, 0.5, 0⟩, true⟩).position :=
  c8_food_trajectory_pure 0.2 3 ⟨(0, 0, 0), ⟨200, 1, 0, 50, 0.5, 0⟩, true⟩
    ⟨(7, 7, 7), ⟨200, 1, 0, 50, 0.5, 0⟩, true⟩ rfl rfl rfl

/-- Claim C9: the per-frame update is a deterministic function of the
prior-frame snapshot and the frame inputs: two runs from equal initial fields
over the same input sequence produce equal agent fields after any number of
frames. -/
theorem c9_determinism (prm : SimParams) (inputs : List FrameInput)
    (s₁ s₂ : SimState) (h : s₁ = s₂) :
    runFrames prm inputs s₁ = runFrames prm inputs s₂ := by
  rw [h]

/-- Witness for C9: one concrete frame run twice from the same initial state. -/
theorem c9_determinism_witness :
    runFrames defaultParams
        [⟨0, 0.016, fun _ => 0, fun _ => false, fun _ => 0, fun _ => false⟩]
        (zeroField, zeroField) =
      runFrames defaultParams
        [⟨0, 0.016, fun _ => 0, fun _ => false, fun _ => 0, fun _ => false⟩]
        (zeroField, zeroField) :=
  c9_determinism _ _ _ _ rfl

/-- Claim C10: an agent exactly at an active food source's or predator's
position (distance exactly 0) receives no force contribution from it; both
environmental loops require strictly positive distance, so such a source is
excluded both from the accumulated steering and from the contribution count. -/
theorem c10_zero_distance_no_contribution (position velocity : Vec3) (prm : SimParams)
    (fp : ℕ → Vec3) (fa : ℕ → Bool) (pp : ℕ → Vec3) (pa : ℕ → Bool) (j : ℕ) :
    (position = fp j →
      foodTerm position velocity prm fp fa j = 0 ∧
      foodCountTerm position prm fp fa j = 0) ∧
    (position = pp j →
      predTerm position velocity prm pp pa j = 0 ∧
      predCountTerm position prm pp pa j = 0) := by
  constructor
  · intro h
    constructor <;> simp [foodTerm, foodCountTerm, h]
  · intro h
    constructor <;> simp [predTerm, predCountTerm, h]

/-- Witness for C10: an agent sitting exactly on an active food source and
exactly on an active predator contributes nothing from either. -/
theorem c10_zero_distance_witness :
    (foodTerm ((1 : ℝ), (2 : ℝ), (3 : ℝ)) 0 defaultParams
        (fun _ => ((1 : ℝ), (2 : ℝ), (3 : ℝ))) (fun _ => true) 0 = 0 ∧
      foodCountTerm ((1 : ℝ), (2 : ℝ), (3 : ℝ)) defaultParams
        (fun _ => ((1 : ℝ), (2 : ℝ), (3 : ℝ))) (fun _ => true) 0 = 0) ∧
    (predTerm ((1 : ℝ), (2 : ℝ), (3 : ℝ)) 0 defaultParams
        (fun _ => ((1 : ℝ), (2 : ℝ), (3 : ℝ))) (fun _ => true) 0 = 0 ∧
      predCountTerm ((1 : ℝ), (2 : ℝ), (3 : ℝ)) defaultParams
        (fun _ => ((1 : ℝ), (2 : ℝ), (3 : ℝ))) (fun _ => true) 0 = 0) := by
  have h := c10_zero_distance_no_contribution ((1 : ℝ), (2 : ℝ), (3 : ℝ)) 0 defaultParams
    (fun _ => ((1 : ℝ), (2 : ℝ), (3 : ℝ))) (fun _ => true)
    (fun _ => ((1 : ℝ), (2 : ℝ), (3 : ℝ))) (fun _ => true) 0
  exact ⟨h.1 rfl, h.2 rfl⟩

end Boids
